import Mathlib

/-!
Verification of the interactive HD-wallet-generation workflow
(`src/node/src/node_configurator/node_configurator_generate_wallet.rs`).

The source is shallowly embedded: every function of the file is translated
into a pure Lean function that returns an `Outcome`, i.e. either a normal
result or a fatal termination (a Rust `panic!`), together with the ordered
list of observable events (console writes, console reads, collaborator
calls, the persistent-configuration presence check) performed up to that
point.  External collaborators (the bip39 mnemonic/seed algorithm, the
bip32 key derivation, the password-entry dialog) are opaque services per
the specification and appear as fields of an `Env` record, so theorems
quantify over their behaviour.
-/

namespace GenerateWallet

/-- bip39 crate: the languages a mnemonic wordlist can be drawn from. -/
inductive Language where
  | English
  | ChineseSimplified
  | ChineseTraditional
  | French
  | Italian
  | Japanese
  | Korean
  | Spanish
  deriving DecidableEq, Repr

/-- bip39 crate: mnemonic word-count classes. -/
inductive MnemonicType where
  | Words12
  | Words15
  | Words18
  | Words21
  | Words24
  deriving DecidableEq, Repr

/-- bip39 crate: `MnemonicType::for_word_count`, defined (per the crate
contract assumed by the spec) exactly on the word counts 12, 15, 18, 21, 24. -/
def MnemonicType.for_word_count : Nat → Option MnemonicType
  | 12 => some .Words12
  | 15 => some .Words15
  | 18 => some .Words18
  | 21 => some .Words21
  | 24 => some .Words24
  | _ => none

/-- Modelled from the spec: `Bip39::language_from_name` lives in
`src/node/src/blockchain/bip39.rs`, which is not under `src/`; the spec says
the language is "supplied by name and resolved to the enum".  The exact name
table is irrelevant to every claim (they quantify over the supplied name),
so any fixed resolution function serves. -/
def language_from_name (name : String) : Language :=
  if name = "english" then .English
  else if name = "español" then .Spanish
  else if name = "français" then .French
  else if name = "italiano" then .Italian
  else if name = "日本語" then .Japanese
  else if name = "한국어" then .Korean
  else if name = "中文(简体)" then .ChineseSimplified
  else if name = "中文(繁體)" then .ChineseTraditional
  else .English

/-- A mnemonic phrase as produced by the factory; only its rendered phrase
(`mnemonic.phrase()`) is observable to this core. -/
structure Mnemonic where
  phrase : String
  deriving DecidableEq, Repr

/-- `PlainData`: raw binary secret material (a byte sequence). -/
abbrev PlainData := List Nat

/-- A bip32 key pair; this core only ever extracts its address
(`keypair.address()`). -/
structure Bip32ECKeyPair where
  keyAddress : String
  deriving DecidableEq, Repr

/-- A wallet value; this core only uses its `Display` rendering. -/
structure Wallet where
  display : String
  deriving DecidableEq, Repr

/-- `Either` from `node_configurator.rs`: the earning-wallet specification is
either a literal address (`left`) or a derivation path (`right`). -/
inductive Either (α β : Type) where
  | left (a : α)
  | right (b : β)
  deriving DecidableEq, Repr

/-- Error type of the password-entry collaborator (`PasswordError` in
`node_configurator.rs`): a distinguishable mismatch-exhaustion condition
versus other I/O failures, per the spec's collaborator contract. -/
inductive PasswordError where
  | Mismatch
  | otherError (description : String)
  deriving DecidableEq, Repr

/-- Debug rendering of a `PasswordError`, used when the source panics with
`panic!("{:?}", e)`. -/
def PasswordError.debugFormat : PasswordError → String
  | .Mismatch => "Mismatch"
  | .otherError d => "RetrieveError(" ++ d ++ ")"

/-- The observable events of a run, in order of occurrence. -/
inductive Event where
  | writeStdout (s : String)
  | requestNewPassword (confirmLabel mismatchMessage : String)
  | readStdinByte
  | checkEncryptedMnemonicSeed
  | makeMnemonic (t : MnemonicType) (l : Language)
  | deriveKeyPair (seed : PlainData) (path : String)
  | parseAddress (address : String)
  | writeConfiguration
  deriving DecidableEq, Repr

/-- Result of running a piece of the workflow: a normal value or a fatal
termination (Rust `panic!` / `.expect`), each carrying the ordered event
trace produced before returning. -/
inductive Outcome (α : Type) where
  | ok (value : α) (events : List Event)
  | fatal (message : String) (events : List Event)
  deriving DecidableEq, Repr

/-- The event trace of an outcome. -/
def Outcome.events {α : Type} : Outcome α → List Event
  | .ok _ evs => evs
  | .fatal _ evs => evs

/-- Whether the outcome is a fatal termination. -/
def Outcome.isFatal {α : Type} : Outcome α → Bool
  | .ok _ _ => false
  | .fatal _ _ => true

/-- Whether the outcome is a normal return. -/
def Outcome.isOk {α : Type} : Outcome α → Bool
  | .ok _ _ => true
  | .fatal _ _ => false

/-- The returned value of a successful outcome. -/
def Outcome.valueOk {α : Type} : Outcome α → Option α
  | .ok v _ => some v
  | .fatal _ _ => none

/-- Behaviour of the external collaborators for one run: the password-entry
dialog result, the success of the one-byte acknowledgement read, the
mnemonic factory, bip39 seed derivation, bip32 key derivation, and the
wallet conversions.  All are opaque services per the spec. -/
structure Env where
  requestNewPasswordResult : Except PasswordError String
  ackReadOk : Bool
  mnemonicMake : MnemonicType → Language → Mnemonic
  bip39Seed : Mnemonic → String → PlainData
  keyPairFromRaw : PlainData → String → Option Bip32ECKeyPair
  walletFromKeyPair : Bip32ECKeyPair → Wallet
  walletFromAddressString : String → Option Wallet
  walletFromAddress : String → Wallet

/-- Modelled from the spec: the `MultiConfig` lookups (`value_m!`) and the
CLI-argument plumbing are external per the spec (general argument
declaration/parsing is excluded); a configuration is the record of resolved
option values the workflow consults.  The wallet password, consuming path
and earning-wallet specification are pre-resolved (defaulted upstream, per
the spec); passphrase, language and word count are optional as in the
source's `value_m!` calls. -/
structure MultiConfig where
  mnemonic_passphrase : Option String
  language : Option String
  word_count : Option Nat
  wallet_password : String
  consuming_derivation_path : String
  earning_wallet_info : Either String String

/-- The persistent configuration store as consulted by this core: only the
presence of an already-encrypted mnemonic seed is read (read-only). -/
structure PersistentConfiguration where
  encrypted_mnemonic_seed : Option String

/-- `DerivationPathWalletInfo` from `node_configurator.rs`, shape fixed by
the tests in the source file. -/
structure DerivationPathWalletInfo where
  mnemonic_seed : PlainData
  wallet_password : String
  consuming_derivation_path_opt : Option String
  earning_derivation_path_opt : Option String
  deriving DecidableEq, Repr

/-- `WalletCreationConfig` from `node_configurator.rs`, shape fixed by the
tests in the source file. -/
structure WalletCreationConfig where
  earning_wallet_address_opt : Option String
  derivation_path_info_opt : Option DerivationPathWalletInfo
  deriving DecidableEq, Repr

/-- The explanatory passphrase prompt written by
`request_mnemonic_passphrase` (source lines 175-178). -/
def passphraseExplanation : String :=
  "\nPlease provide an extra mnemonic passphrase to ensure your wallet is unique (NOTE: This passphrase cannot be changed later and still produce the same addresses). You will encrypt your wallet in a following step...\n"

/-- The solicitation label written by `request_mnemonic_passphrase`
(source line 179). -/
def passphraseSolicitation : String :=
  "Mnemonic passphrase (recommended): "

/-- The ill-advised warning written before the acknowledgement read
(source lines 188-191). -/
def illAdvisedWarning : String :=
  "\nWhile ill-advised, proceeding with no mnemonic passphrase.\nPress Enter to continue..."

/-- The events common to every interactive passphrase collection: the two
explanatory writes then the password-entry collaborator call. -/
def promptEvents : List Event :=
  [Event.writeStdout passphraseExplanation,
   Event.writeStdout passphraseSolicitation,
   Event.requestNewPassword "Confirm mnemonic passphrase: " "Passphrases do not match."]

/-- From the source (lines 174-201):
`NodeConfiguratorGenerateWallet::request_mnemonic_passphrase`.  Writes the
explanation and solicitation, calls `request_new_password`; on a matching
empty passphrase writes the warning, reads one acknowledgement byte whose
result is converted to a boolean and discarded (`let _ = ...is_ok()`), and
returns `none`; on a non-empty match returns it; on `Mismatch` panics with
"Passphrases do not match."; on any other error panics with its debug
rendering. -/
def request_mnemonic_passphrase (env : Env) : Outcome (Option String) :=
  match env.requestNewPasswordResult with
  | .ok mp =>
      if mp = "" then
        let _ack := env.ackReadOk
        Outcome.ok none
          (promptEvents ++ [Event.writeStdout illAdvisedWarning, Event.readStdinByte])
      else
        Outcome.ok (some mp) promptEvents
  | .error PasswordError.Mismatch =>
      Outcome.fatal "Passphrases do not match." promptEvents
  | .error e =>
      Outcome.fatal e.debugFormat promptEvents

/-- From the source (lines 73-85):
`NodeConfiguratorGenerateWallet::make_mnemonic_passphrase`.  A pre-supplied
`--mnemonic-passphrase` value is returned directly with no console
interaction; otherwise the interactive dialog runs, with `none` (empty
confirmed passphrase) resolved to the empty string. -/
def make_mnemonic_passphrase (env : Env) (multi_config : MultiConfig) :
    Outcome String :=
  match multi_config.mnemonic_passphrase with
  | some mp => Outcome.ok mp []
  | none =>
      match request_mnemonic_passphrase env with
      | .ok (some mp) evs => Outcome.ok mp evs
      | .ok none evs => Outcome.ok "" evs
      | .fatal m evs => Outcome.fatal m evs

/-- The recovery-phrase header written first by `report_wallet_information`
(source lines 210-216). -/
def recoveryHeader : String :=
  "\n\nRecord the following mnemonic recovery phrase in the sequence provided and keep it secret! You cannot recover your wallet without these words plus your mnemonic passphrase if you provided one.\n\n"

/-- The consuming-wallet report line (source lines 225-231). -/
def consumingLine (path : String) (w : Wallet) : String :=
  "Consuming Wallet (" ++ path ++ "): " ++ w.display ++ "\n"

/-- The earning-wallet report line in literal-address mode
(source lines 236-239): no path annotation. -/
def earningLineLiteral (w : Wallet) : String :=
  "  Earning Wallet: " ++ w.display

/-- The earning-wallet report line in derived mode (source lines 250-256):
carries the earning derivation path. -/
def earningLineDerived (path : String) (w : Wallet) : String :=
  "  Earning Wallet (" ++ path ++ "): " ++ w.display

/-- Panic message of the `.expect` on the consuming derivation
(source lines 220-223). -/
def consumingDerivationFailure (path : String) : String :=
  "Couldn\x27t make key pair from consuming derivation path \x27" ++ path ++ "\x27"

/-- Panic message of the `.expect` on the earning derivation
(source lines 243-248). -/
def earningDerivationFailure (path : String) : String :=
  "Couldn\x27t make key pair from earning derivation path \x27" ++ path ++ "\x27"

/-- From the source (lines 203-259):
`NodeConfiguratorGenerateWallet::report_wallet_information`.  Writes the
recovery header, the mnemonic phrase and a blank-line separator; then
derives the consuming key pair (panicking if that fails), writes the
consuming line; then, per the earning specification, either parses the
literal address (panicking with "Address doesn\x27t work anymore" on
failure) and writes the path-free earning line, or derives the earning key
pair (panicking if that fails) and writes the path-annotated earning line. -/
def report_wallet_information (env : Env) (mnemonic : Mnemonic)
    (seed : PlainData) (consuming_derivation_path : String)
    (earning_wallet_info : Either String String) : Outcome Unit :=
  let headerEvents : List Event :=
    [Event.writeStdout recoveryHeader,
     Event.writeStdout mnemonic.phrase,
     Event.writeStdout "\n\n"]
  match env.keyPairFromRaw seed consuming_derivation_path with
  | none =>
      Outcome.fatal (consumingDerivationFailure consuming_derivation_path)
        (headerEvents ++ [Event.deriveKeyPair seed consuming_derivation_path])
  | some consuming_keypair =>
      let consuming_wallet := env.walletFromKeyPair consuming_keypair
      let consumingEvents : List Event :=
        headerEvents ++
          [Event.deriveKeyPair seed consuming_derivation_path,
           Event.writeStdout (consumingLine consuming_derivation_path consuming_wallet)]
      match earning_wallet_info with
      | Either.left address =>
          match env.walletFromAddressString address with
          | none =>
              Outcome.fatal "Address doesn\x27t work anymore"
                (consumingEvents ++ [Event.parseAddress address])
          | some earning_wallet =>
              Outcome.ok ()
                (consumingEvents ++
                  [Event.parseAddress address,
                   Event.writeStdout (earningLineLiteral earning_wallet)])
      | Either.right earning_derivation_path =>
          match env.keyPairFromRaw seed earning_derivation_path with
          | none =>
              Outcome.fatal (earningDerivationFailure earning_derivation_path)
                (consumingEvents ++ [Event.deriveKeyPair seed earning_derivation_path])
          | some earning_keypair =>
              let earning_wallet := env.walletFromAddress earning_keypair.keyAddress
              Outcome.ok ()
                (consumingEvents ++
                  [Event.deriveKeyPair seed earning_derivation_path,
                   Event.writeStdout (earningLineDerived earning_derivation_path earning_wallet)])

/-- From the source (lines 87-112):
`NodeConfiguratorGenerateWallet::make_mnemonic_seed`.  Resolves the language
(panicking with "--language is not defaulted" if absent), resolves the word
count (panicking with "--word-count is not defaulted" if absent), converts
it to a mnemonic type (panicking with "--word-count is not properly
value-restricted" if the conversion fails), calls the mnemonic factory
exactly once with that type and language, derives the bip39 seed from the
mnemonic and the passphrase, reports, and returns the seed. -/
def make_mnemonic_seed (env : Env) (multi_config : MultiConfig)
    (mnemonic_passphrase : String) (consuming_derivation_path : String)
    (earning_wallet_info : Either String String) : Outcome PlainData :=
  match multi_config.language with
  | none => Outcome.fatal "--language is not defaulted" []
  | some language_str =>
      let language := language_from_name language_str
      match multi_config.word_count with
      | none => Outcome.fatal "--word-count is not defaulted" []
      | some word_count =>
          match MnemonicType.for_word_count word_count with
          | none => Outcome.fatal "--word-count is not properly value-restricted" []
          | some mnemonic_type =>
              let mnemonic := env.mnemonicMake mnemonic_type language
              let seed := env.bip39Seed mnemonic mnemonic_passphrase
              match report_wallet_information env mnemonic seed
                  consuming_derivation_path earning_wallet_info with
              | .ok _ evs =>
                  Outcome.ok seed (Event.makeMnemonic mnemonic_type language :: evs)
              | .fatal m evs =>
                  Outcome.fatal m (Event.makeMnemonic mnemonic_type language :: evs)

/-- Modelled from the spec:
`WalletCreationConfigMaker::make_wallet_creation_config` is the provided
trait method in `node_configurator.rs`, not under `src/`.  Per the spec's
orchestration it resolves the passphrase (4.2), then runs mnemonic
generation / seed derivation / wallet derivation / report via
`make_mnemonic_seed`, and assembles the `WalletCreationConfig`: in
literal-address mode the literal address is populated and no earning path;
in derived mode the earning path is populated and no literal address
(exactly one branch populated, spec section 3); the seed, wallet password
and consuming path are carried into the derivation-info record. -/
def make_wallet_creation_config (env : Env) (multi_config : MultiConfig) :
    Outcome WalletCreationConfig :=
  match make_mnemonic_passphrase env multi_config with
  | .fatal m evs => Outcome.fatal m evs
  | .ok mnemonic_passphrase passphraseEvents =>
      match make_mnemonic_seed env multi_config mnemonic_passphrase
          multi_config.consuming_derivation_path multi_config.earning_wallet_info with
      | .fatal m evs => Outcome.fatal m (passphraseEvents ++ evs)
      | .ok seed seedEvents =>
          Outcome.ok
            { earning_wallet_address_opt :=
                match multi_config.earning_wallet_info with
                | Either.left address => some address
                | Either.right _ => none,
              derivation_path_info_opt := some
                { mnemonic_seed := seed,
                  wallet_password := multi_config.wallet_password,
                  consuming_derivation_path_opt :=
                    some multi_config.consuming_derivation_path,
                  earning_derivation_path_opt :=
                    match multi_config.earning_wallet_info with
                    | Either.left _ => none
                    | Either.right path => some path } }
            (passphraseEvents ++ seedEvents)

/-- From the source (lines 161-172):
`NodeConfiguratorGenerateWallet::parse_args`.  First performs the single
read-only presence check of the encrypted mnemonic seed; if one exists it
panics immediately with "Can\x27t generate wallets: mnemonic seed has
already been created" (no other event has occurred); otherwise it runs
`make_wallet_creation_config`. -/
def parse_args (env : Env) (multi_config : MultiConfig)
    (persistent_config : PersistentConfiguration) : Outcome WalletCreationConfig :=
  match persistent_config.encrypted_mnemonic_seed with
  | some _ =>
      Outcome.fatal "Can\x27t generate wallets: mnemonic seed has already been created"
        [Event.checkEncryptedMnemonicSeed]
  | none =>
      match make_wallet_creation_config env multi_config with
      | .ok c evs => Outcome.ok c (Event.checkEncryptedMnemonicSeed :: evs)
      | .fatal m evs => Outcome.fatal m (Event.checkEncryptedMnemonicSeed :: evs)

/-- From the source (lines 28-37), with the collaborators it calls modelled
from the spec: `configure` builds the multi-config and database handle
(external plumbing), runs `parse_args`, and only after it returns invokes
`create_wallet` (in `node_configurator.rs`, not under `src/`), which
persists the configuration — modelled as the single `writeConfiguration`
event. -/
def configure (env : Env) (multi_config : MultiConfig)
    (persistent_config : PersistentConfiguration) : Outcome WalletCreationConfig :=
  match parse_args env multi_config persistent_config with
  | .fatal m evs => Outcome.fatal m evs
  | .ok c evs => Outcome.ok c (evs ++ [Event.writeConfiguration])

/-- Whether an event is a console-output write. -/
def Event.isWrite : Event → Bool
  | .writeStdout _ => true
  | _ => false

/-- Whether an event is a bip32 key-derivation call. -/
def Event.isDerivation : Event → Bool
  | .deriveKeyPair _ _ => true
  | _ => false

/-- Whether an event is a mnemonic-factory call. -/
def Event.isMakeMnemonic : Event → Bool
  | .makeMnemonic _ _ => true
  | _ => false

/-- Whether an event is console interaction (write, password dialog, read). -/
def Event.isConsole : Event → Bool
  | .writeStdout _ => true
  | .requestNewPassword _ _ => true
  | .readStdinByte => true
  | _ => false

/-- Holds (as `true`) when some console write is followed, later in the
trace, by a key-derivation event — the negation of "all derivations
complete before any output is written". -/
def writeThenDerivation : List Event → Bool
  | [] => false
  | e :: rest => (e.isWrite && rest.any Event.isDerivation) || writeThenDerivation rest

/-- A fixed mnemonic used by the concrete witness environment. -/
def sampleMnemonic : Mnemonic :=
  { phrase := "timber cage wide hawk phone shaft pattern movie army dizzy hen time" }

/-- A concrete collaborator environment for witnesses: the password dialog
yields "Mortimer", the acknowledgement read succeeds, the factory returns
`sampleMnemonic`, and derivations succeed deterministically. -/
def sampleEnv : Env :=
  { requestNewPasswordResult := Except.ok "Mortimer",
    ackReadOk := true,
    mnemonicMake := fun _ _ => sampleMnemonic,
    bip39Seed := fun _ _ => [1, 2, 3, 4],
    keyPairFromRaw := fun _ path => some { keyAddress := "addr of " ++ path },
    walletFromKeyPair := fun kp => { display := "wallet " ++ kp.keyAddress },
    walletFromAddressString := fun a => some { display := a },
    walletFromAddress := fun a => { display := a } }

/-- The explicit consuming derivation path of end-to-end scenario A. -/
def sampleConsumingPath : String := "m/44\x27/60\x27/0\x27/77/78"

/-- The explicit earning derivation path of end-to-end scenario A. -/
def sampleEarningPath : String := "m/44\x27/60\x27/0\x27/78/77"

/-- The seed `sampleEnv` derives for every mnemonic/passphrase pair. -/
def sampleSeed : PlainData := [1, 2, 3, 4]

/-- The key pair `sampleEnv` derives for the consuming path. -/
def sampleConsumingKeyPair : Bip32ECKeyPair :=
  { keyAddress := "addr of " ++ sampleConsumingPath }

/-- The key pair `sampleEnv` derives for the earning path. -/
def sampleEarningKeyPair : Bip32ECKeyPair :=
  { keyAddress := "addr of " ++ sampleEarningPath }

/-- A concrete literal earning-wallet address. -/
def sampleLiteralAddress : String := "0x3f69f9efd4f2592fd70be8c32ecd9dce71c472fc"

/-- A concrete resolved configuration matching end-to-end scenario A of the
spec (word count 15, Spanish, explicit paths, passphrase "Mortimer"). -/
def sampleConfig : MultiConfig :=
  { mnemonic_passphrase := some "Mortimer",
    language := some "español",
    word_count := some 15,
    wallet_password := "secret wallet password",
    consuming_derivation_path := sampleConsumingPath,
    earning_wallet_info := Either.right sampleEarningPath }

/-- Scenario-A configuration with no pre-supplied passphrase, forcing the
interactive dialog. -/
def interactiveConfig : MultiConfig :=
  { sampleConfig with mnemonic_passphrase := none }

/-- Scenario-A configuration with the language value absent. -/
def noLanguageConfig : MultiConfig := { sampleConfig with language := none }

/-- Scenario-A configuration with the word-count value absent. -/
def noWordCountConfig : MultiConfig := { sampleConfig with word_count := none }

/-- Environment whose password dialog reports mismatch exhaustion. -/
def mismatchEnv : Env :=
  { sampleEnv with requestNewPasswordResult := Except.error PasswordError.Mismatch }

/-- Environment whose password dialog yields a matching empty passphrase. -/
def emptyPassEnv : Env :=
  { sampleEnv with requestNewPasswordResult := Except.ok "" }

/-- Environment with a matching empty passphrase AND a failing one-byte
acknowledgement read. -/
def failingAckEnv : Env :=
  { sampleEnv with requestNewPasswordResult := Except.ok "", ackReadOk := false }

/-- Environment whose password dialog fails with a non-mismatch I/O error. -/
def brokenPipeEnv : Env :=
  { sampleEnv with
      requestNewPasswordResult :=
        Except.error (PasswordError.otherError "broken pipe") }

/-- A persistent store with no stored seed. -/
def emptyStore : PersistentConfiguration := { encrypted_mnemonic_seed := none }

/-- A persistent store that already holds an encrypted mnemonic seed. -/
def seededStore : PersistentConfiguration :=
  { encrypted_mnemonic_seed := some "encrypted seed" }

/-- The report-stage outcome of the concrete scenario-A run. -/
def sampleReport : Outcome Unit :=
  report_wallet_information sampleEnv
    (sampleEnv.mnemonicMake MnemonicType.Words15 (language_from_name "español"))
    (sampleEnv.bip39Seed
      (sampleEnv.mnemonicMake MnemonicType.Words15 (language_from_name "español"))
      "Mortimer")
    sampleConfig.consuming_derivation_path sampleConfig.earning_wallet_info

/-- Claim C1: with an encrypted mnemonic seed already stored, `parse_args`
(and hence `configure`) terminates fatally with the seed-already-exists
message, and its entire event trace is the single read-only presence check:
no passphrase prompting, no mnemonic generation, no console output, and no
modification of the persistent configuration has occurred. -/
theorem collision_halts_before_any_effect (env : Env) (mc : MultiConfig)
    (pc : PersistentConfiguration) (s : String)
    (h : pc.encrypted_mnemonic_seed = some s) :
    parse_args env mc pc =
      Outcome.fatal "Can\x27t generate wallets: mnemonic seed has already been created"
        [Event.checkEncryptedMnemonicSeed]
    ∧ configure env mc pc =
      Outcome.fatal "Can\x27t generate wallets: mnemonic seed has already been created"
        [Event.checkEncryptedMnemonicSeed] := by
  constructor
  · simp [parse_args, h]
  · simp [configure, parse_args, h]

/-- Witness for C1 at the concrete seeded store. -/
theorem collision_halts_before_any_effect_witness :
    parse_args sampleEnv sampleConfig seededStore =
      Outcome.fatal "Can\x27t generate wallets: mnemonic seed has already been created"
        [Event.checkEncryptedMnemonicSeed]
    ∧ configure sampleEnv sampleConfig seededStore =
      Outcome.fatal "Can\x27t generate wallets: mnemonic seed has already been created"
        [Event.checkEncryptedMnemonicSeed] :=
  collision_halts_before_any_effect sampleEnv sampleConfig seededStore
    "encrypted seed" rfl

/-- Claim C9: a pre-supplied `--mnemonic-passphrase` value is returned
exactly, with an empty event trace — no console write, no console read. -/
theorem presupplied_passphrase_no_console (env : Env) (mc : MultiConfig)
    (mp : String) (h : mc.mnemonic_passphrase = some mp) :
    make_mnemonic_passphrase env mc = Outcome.ok mp [] := by
  simp [make_mnemonic_passphrase, h]

/-- Witness for C9 at the concrete scenario-A configuration. -/
theorem presupplied_passphrase_no_console_witness :
    make_mnemonic_passphrase sampleEnv sampleConfig = Outcome.ok "Mortimer" [] :=
  presupplied_passphrase_no_console sampleEnv sampleConfig "Mortimer" rfl

/-- Helper: in every run of the report stage, the first four events are the
three header writes followed by the consuming key-derivation attempt. -/
theorem report_events_take_four (env : Env) (mnemonic : Mnemonic)
    (seed : PlainData) (cpath : String) (ew : Either String String) :
    (report_wallet_information env mnemonic seed cpath ew).events.take 4 =
      [Event.writeStdout recoveryHeader, Event.writeStdout mnemonic.phrase,
       Event.writeStdout "\n\n", Event.deriveKeyPair seed cpath] := by
  unfold report_wallet_information
  repeat' split
  all_goals rfl

/-- Claim C10: in every run of `report_wallet_information` — successful or
fatal — the first four events are the recovery-header write, the mnemonic
phrase write, the blank-line write, and only then the consuming
key-derivation attempt; hence whenever a derivation fails fatally at this
stage, the secret mnemonic has already been emitted to the console. -/
theorem mnemonic_emitted_before_derivation (env : Env) (mnemonic : Mnemonic)
    (seed : PlainData) (cpath : String) (ew : Either String String) :
    (report_wallet_information env mnemonic seed cpath ew).events.take 4 =
      [Event.writeStdout recoveryHeader, Event.writeStdout mnemonic.phrase,
       Event.writeStdout "\n\n", Event.deriveKeyPair seed cpath] :=
  report_events_take_four env mnemonic seed cpath ew

/-- Helper: the report stage never calls the mnemonic factory — its trace
contains no `makeMnemonic` event. -/
theorem report_no_factory_call (env : Env) (mnemonic : Mnemonic)
    (seed : PlainData) (cpath : String) (ew : Either String String) :
    ((report_wallet_information env mnemonic seed cpath ew).events).filter
      Event.isMakeMnemonic = [] := by
  unfold report_wallet_information
  repeat' split
  all_goals rfl

/-- Helper: with resolved language and word count, the trace of
`make_mnemonic_seed` is the single factory-call event followed by exactly
the report-stage events (for the factory-produced mnemonic and the bip39
seed derived from it and the passphrase). -/
theorem make_mnemonic_seed_trace (env : Env) (mc : MultiConfig)
    (wc : Nat) (ls : String) (t : MnemonicType)
    (hwc : mc.word_count = some wc) (hls : mc.language = some ls)
    (ht : MnemonicType.for_word_count wc = some t)
    (mp cpath : String) (ew : Either String String) :
    (make_mnemonic_seed env mc mp cpath ew).events =
      Event.makeMnemonic t (language_from_name ls) ::
        (report_wallet_information env (env.mnemonicMake t (language_from_name ls))
          (env.bip39Seed (env.mnemonicMake t (language_from_name ls)) mp)
          cpath ew).events := by
  unfold make_mnemonic_seed
  simp only [hls, hwc, ht]
  cases hrep : report_wallet_information env
      (env.mnemonicMake t (language_from_name ls))
      (env.bip39Seed (env.mnemonicMake t (language_from_name ls)) mp) cpath ew <;>
    simp [hrep, Outcome.events]

/-- Helper: with no stored seed, the trace of `parse_args` is the presence
check followed by the orchestration events. -/
theorem parse_args_events (env : Env) (mc : MultiConfig)
    (pc : PersistentConfiguration) (hpc : pc.encrypted_mnemonic_seed = none) :
    (parse_args env mc pc).events =
      Event.checkEncryptedMnemonicSeed ::
        (make_wallet_creation_config env mc).events := by
  unfold parse_args
  rw [hpc]
  cases h : make_wallet_creation_config env mc <;> simp [h, Outcome.events]

/-- Helper: with a successful passphrase collection, the orchestration trace
is the passphrase-collection events followed by the mnemonic/seed/report
events. -/
theorem make_wallet_creation_config_events (env : Env) (mc : MultiConfig)
    (mp : String) (passEvs : List Event)
    (hmp : make_mnemonic_passphrase env mc = Outcome.ok mp passEvs) :
    (make_wallet_creation_config env mc).events =
      passEvs ++ (make_mnemonic_seed env mc mp
        mc.consuming_derivation_path mc.earning_wallet_info).events := by
  unfold make_wallet_creation_config
  rw [hmp]
  cases h : make_mnemonic_seed env mc mp
      mc.consuming_derivation_path mc.earning_wallet_info <;>
    simp [h, Outcome.events]

/-- Helper: every event a successful passphrase collection emits is console
interaction (writes, the password dialog, the acknowledgement read). -/
theorem request_mnemonic_passphrase_console (env : Env) :
    (request_mnemonic_passphrase env).events.all Event.isConsole = true := by
  unfold request_mnemonic_passphrase
  repeat' split
  all_goals rfl

/-- Helper: every event a successful passphrase collection emits is console
interaction. -/
theorem make_mnemonic_passphrase_console (env : Env) (mc : MultiConfig)
    (mp : String) (passEvs : List Event)
    (hmp : make_mnemonic_passphrase env mc = Outcome.ok mp passEvs) :
    passEvs.all Event.isConsole = true := by
  have h := request_mnemonic_passphrase_console env
  unfold make_mnemonic_passphrase at hmp
  cases hpre : mc.mnemonic_passphrase with
  | some mp0 =>
      rw [hpre] at hmp
      cases hmp
      rfl
  | none =>
      rw [hpre] at hmp
      cases hreq : request_mnemonic_passphrase env with
      | ok v evs =>
          rw [hreq] at hmp
          rw [hreq] at h
          cases v with
          | some mp1 => cases hmp; exact h
          | none => cases hmp; exact h
      | fatal m evs =>
          rw [hreq] at hmp
          cases hmp

/-- Claim C3: interactive passphrase collection — a matching non-empty
passphrase is used verbatim; a matching empty passphrase yields the empty
string after the ill-advised warning is written and one acknowledgement
byte is read; mismatch exhaustion terminates fatally with exactly
"Passphrases do not match.". -/
theorem passphrase_collection_cases (env : Env) (mc : MultiConfig)
    (hmc : mc.mnemonic_passphrase = none) :
    (∀ mp, mp ≠ "" → env.requestNewPasswordResult = Except.ok mp →
        make_mnemonic_passphrase env mc = Outcome.ok mp promptEvents)
    ∧ (env.requestNewPasswordResult = Except.ok "" →
        make_mnemonic_passphrase env mc =
          Outcome.ok "" (promptEvents ++
            [Event.writeStdout illAdvisedWarning, Event.readStdinByte]))
    ∧ (env.requestNewPasswordResult = Except.error PasswordError.Mismatch →
        make_mnemonic_passphrase env mc =
          Outcome.fatal "Passphrases do not match." promptEvents) := by
  refine ⟨fun mp hne hres => ?_, fun hres => ?_, fun hres => ?_⟩
  · simp [make_mnemonic_passphrase, request_mnemonic_passphrase, hmc, hres, hne]
  · simp [make_mnemonic_passphrase, request_mnemonic_passphrase, hmc, hres]
  · simp [make_mnemonic_passphrase, request_mnemonic_passphrase, hmc, hres]

/-- Witness for C3: the three dialog outcomes at concrete environments. -/
theorem passphrase_collection_cases_witness :
    make_mnemonic_passphrase sampleEnv interactiveConfig =
      Outcome.ok "Mortimer" promptEvents
    ∧ make_mnemonic_passphrase emptyPassEnv interactiveConfig =
      Outcome.ok "" (promptEvents ++
        [Event.writeStdout illAdvisedWarning, Event.readStdinByte])
    ∧ make_mnemonic_passphrase mismatchEnv interactiveConfig =
      Outcome.fatal "Passphrases do not match." promptEvents :=
  ⟨(passphrase_collection_cases sampleEnv interactiveConfig rfl).1 "Mortimer"
      (by decide) rfl,
   (passphrase_collection_cases emptyPassEnv interactiveConfig rfl).2.1 rfl,
   (passphrase_collection_cases mismatchEnv interactiveConfig rfl).2.2 rfl⟩

/-- Claim C4: the report stage emits, in order, the recovery header, the
mnemonic phrase, the blank lines, the consuming-wallet line, and the
earning-wallet line; in literal-address mode there is no earning
key-derivation event (the single derivation in the trace is the consuming
one) and the earning line carries no path, while in derived mode the
earning derivation occurs and the line carries the earning path. -/
theorem report_order_literal_vs_derived (env : Env) (mnemonic : Mnemonic)
    (seed : PlainData) (cpath : String) (ck : Bip32ECKeyPair)
    (hck : env.keyPairFromRaw seed cpath = some ck) :
    (∀ address w, env.walletFromAddressString address = some w →
      report_wallet_information env mnemonic seed cpath (Either.left address) =
        Outcome.ok ()
          [Event.writeStdout recoveryHeader,
           Event.writeStdout mnemonic.phrase,
           Event.writeStdout "\n\n",
           Event.deriveKeyPair seed cpath,
           Event.writeStdout (consumingLine cpath (env.walletFromKeyPair ck)),
           Event.parseAddress address,
           Event.writeStdout (earningLineLiteral w)])
    ∧ (∀ epath ek, env.keyPairFromRaw seed epath = some ek →
      report_wallet_information env mnemonic seed cpath (Either.right epath) =
        Outcome.ok ()
          [Event.writeStdout recoveryHeader,
           Event.writeStdout mnemonic.phrase,
           Event.writeStdout "\n\n",
           Event.deriveKeyPair seed cpath,
           Event.writeStdout (consumingLine cpath (env.walletFromKeyPair ck)),
           Event.deriveKeyPair seed epath,
           Event.writeStdout
             (earningLineDerived epath (env.walletFromAddress ek.keyAddress))]) := by
  refine ⟨fun address w hw => ?_, fun epath ek he => ?_⟩
  · simp [report_wallet_information, hck, hw]
  · simp [report_wallet_information, hck, he]

/-- Witness for C4: both report modes evaluated in the concrete
environment. -/
theorem report_order_literal_vs_derived_witness :
    report_wallet_information sampleEnv sampleMnemonic sampleSeed
        sampleConsumingPath (Either.left sampleLiteralAddress) =
      Outcome.ok ()
        [Event.writeStdout recoveryHeader,
         Event.writeStdout sampleMnemonic.phrase,
         Event.writeStdout "\n\n",
         Event.deriveKeyPair sampleSeed sampleConsumingPath,
         Event.writeStdout (consumingLine sampleConsumingPath
           (sampleEnv.walletFromKeyPair sampleConsumingKeyPair)),
         Event.parseAddress sampleLiteralAddress,
         Event.writeStdout (earningLineLiteral { display := sampleLiteralAddress })]
    ∧ report_wallet_information sampleEnv sampleMnemonic sampleSeed
        sampleConsumingPath (Either.right sampleEarningPath) =
      Outcome.ok ()
        [Event.writeStdout recoveryHeader,
         Event.writeStdout sampleMnemonic.phrase,
         Event.writeStdout "\n\n",
         Event.deriveKeyPair sampleSeed sampleConsumingPath,
         Event.writeStdout (consumingLine sampleConsumingPath
           (sampleEnv.walletFromKeyPair sampleConsumingKeyPair)),
         Event.deriveKeyPair sampleSeed sampleEarningPath,
         Event.writeStdout (earningLineDerived sampleEarningPath
           (sampleEnv.walletFromAddress sampleEarningKeyPair.keyAddress))] :=
  ⟨(report_order_literal_vs_derived sampleEnv sampleMnemonic sampleSeed
      sampleConsumingPath sampleConsumingKeyPair rfl).1 sampleLiteralAddress
      { display := sampleLiteralAddress } rfl,
   (report_order_literal_vs_derived sampleEnv sampleMnemonic sampleSeed
      sampleConsumingPath sampleConsumingKeyPair rfl).2 sampleEarningPath
      sampleEarningKeyPair rfl⟩

/-- Claim C5: in every run that reaches seed derivation (language, word
count and passphrase resolved, derived earning mode, report succeeding),
the seed carried into the resulting `WalletCreationConfig` is exactly the
bip39 seed of the mnemonic actually produced by the factory and the
resolved passphrase, and both derivation-path strings are carried through
unchanged. -/
theorem seed_and_paths_carried_to_config (env : Env) (mc : MultiConfig)
    (ls : String) (wc : Nat) (t : MnemonicType)
    (hls : mc.language = some ls) (hwc : mc.word_count = some wc)
    (ht : MnemonicType.for_word_count wc = some t)
    (mp : String) (passEvs : List Event)
    (hmp : make_mnemonic_passphrase env mc = Outcome.ok mp passEvs)
    (epath : String) (he : mc.earning_wallet_info = Either.right epath)
    (hrep : (report_wallet_information env
        (env.mnemonicMake t (language_from_name ls))
        (env.bip39Seed (env.mnemonicMake t (language_from_name ls)) mp)
        mc.consuming_derivation_path mc.earning_wallet_info).isOk = true) :
    (make_wallet_creation_config env mc).valueOk = some
      { earning_wallet_address_opt := none,
        derivation_path_info_opt := some
          { mnemonic_seed :=
              env.bip39Seed (env.mnemonicMake t (language_from_name ls)) mp,
            wallet_password := mc.wallet_password,
            consuming_derivation_path_opt := some mc.consuming_derivation_path,
            earning_derivation_path_opt := some epath } } := by
  obtain ⟨u, revs, hr⟩ : ∃ u revs,
      report_wallet_information env (env.mnemonicMake t (language_from_name ls))
        (env.bip39Seed (env.mnemonicMake t (language_from_name ls)) mp)
        mc.consuming_derivation_path mc.earning_wallet_info =
        Outcome.ok u revs := by
    cases hcase : report_wallet_information env
        (env.mnemonicMake t (language_from_name ls))
        (env.bip39Seed (env.mnemonicMake t (language_from_name ls)) mp)
        mc.consuming_derivation_path mc.earning_wallet_info with
    | ok u revs => exact ⟨u, revs, rfl⟩
    | fatal m revs => rw [hcase] at hrep; simp [Outcome.isOk] at hrep
  rw [he] at hr
  simp [make_wallet_creation_config, make_mnemonic_seed, hmp, hls, hwc, ht,
    he, hr, Outcome.valueOk]

/-- Witness for C5: scenario A (Spanish, 15 words, passphrase "Mortimer",
explicit paths) in the concrete environment. -/
theorem seed_and_paths_carried_to_config_witness :
    (make_wallet_creation_config sampleEnv sampleConfig).valueOk = some
      { earning_wallet_address_opt := none,
        derivation_path_info_opt := some
          { mnemonic_seed :=
              sampleEnv.bip39Seed
                (sampleEnv.mnemonicMake MnemonicType.Words15
                  (language_from_name "español")) "Mortimer",
            wallet_password := sampleConfig.wallet_password,
            consuming_derivation_path_opt :=
              some sampleConfig.consuming_derivation_path,
            earning_derivation_path_opt := some sampleEarningPath } } :=
  seed_and_paths_carried_to_config sampleEnv sampleConfig "español" 15
    MnemonicType.Words15 rfl rfl rfl "Mortimer" [] rfl sampleEarningPath rfl rfl

/-- Claim C6: with a supported word count and a supplied language, the
mnemonic factory is called exactly once, with exactly the mnemonic type for
that word count and exactly the resolved language: the trace of
`make_mnemonic_seed` contains precisely one factory-call event, carrying
that pair. -/
theorem factory_called_once_with_requested_pair (env : Env) (mc : MultiConfig)
    (wc : Nat) (ls : String) (t : MnemonicType)
    (hwc : mc.word_count = some wc) (hls : mc.language = some ls)
    (ht : MnemonicType.for_word_count wc = some t)
    (mp cpath : String) (ew : Either String String) :
    ((make_mnemonic_seed env mc mp cpath ew).events).filter
      Event.isMakeMnemonic =
      [Event.makeMnemonic t (language_from_name ls)] := by
  rw [make_mnemonic_seed_trace env mc wc ls t hwc hls ht mp cpath ew]
  simp [List.filter_cons, Event.isMakeMnemonic,
    report_no_factory_call env (env.mnemonicMake t (language_from_name ls))
      (env.bip39Seed (env.mnemonicMake t (language_from_name ls)) mp) cpath ew]

/-- Witness for C6: scenario A in the concrete environment. -/
theorem factory_called_once_with_requested_pair_witness :
    ((make_mnemonic_seed sampleEnv sampleConfig "Mortimer"
        sampleConfig.consuming_derivation_path
        sampleConfig.earning_wallet_info).events).filter
      Event.isMakeMnemonic =
      [Event.makeMnemonic MnemonicType.Words15 (language_from_name "español")] :=
  factory_called_once_with_requested_pair sampleEnv sampleConfig 15 "español"
    MnemonicType.Words15 rfl rfl rfl "Mortimer"
    sampleConfig.consuming_derivation_path sampleConfig.earning_wallet_info

/-- Claim C7 counterexample: with a matching empty passphrase and a FAILING
one-byte acknowledgement read (the source converts the read result to a
boolean and discards it: `let _ = streams.stdin.read(&mut [0u8]).is_ok()`),
the run does not terminate fatally — the console I/O failure is silently
swallowed, refuting the claim that every console I/O failure encountered by
this core is propagated as fatal. -/
theorem ack_read_failure_swallowed :
    failingAckEnv.ackReadOk = false ∧
      (request_mnemonic_passphrase failingAckEnv).isFatal = false := by
  exact ⟨rfl, rfl⟩

/-- Claim C7 (amended): any non-mismatch error from the password-entry
collaborator is propagated as a fatal termination (with its debug
rendering), but the result of the single-byte acknowledgement read after an
empty passphrase is discarded — the collection succeeds with the empty
passphrase whether or not that read succeeds. -/
theorem console_error_propagation_amended (env : Env) :
    (∀ d, env.requestNewPasswordResult =
        Except.error (PasswordError.otherError d) →
      request_mnemonic_passphrase env =
        Outcome.fatal (PasswordError.otherError d).debugFormat promptEvents)
    ∧ (env.requestNewPasswordResult = Except.ok "" →
      request_mnemonic_passphrase env =
        Outcome.ok none (promptEvents ++
          [Event.writeStdout illAdvisedWarning, Event.readStdinByte])) := by
  refine ⟨fun d hres => ?_, fun hres => ?_⟩ <;>
    simp [request_mnemonic_passphrase, hres]

/-- Witness for the amended C7: a broken-pipe dialog error is fatal, and the
empty-passphrase collection succeeds even in the failing-read environment. -/
theorem console_error_propagation_amended_witness :
    request_mnemonic_passphrase brokenPipeEnv =
      Outcome.fatal (PasswordError.otherError "broken pipe").debugFormat
        promptEvents
    ∧ request_mnemonic_passphrase failingAckEnv =
      Outcome.ok none (promptEvents ++
        [Event.writeStdout illAdvisedWarning, Event.readStdinByte]) :=
  ⟨(console_error_propagation_amended brokenPipeEnv).1 "broken pipe" rfl,
   (console_error_propagation_amended failingAckEnv).2 rfl⟩

/-- Claim C8: an absent language or word-count value makes
`make_mnemonic_seed` terminate fatally with the corresponding
internal-invariant message before any event occurs (no silent defaulting),
and for every word count the argument parser admits ({12,15,18,21,24}) the
conversion to a mnemonic type succeeds, so its failure branch is
unreachable. -/
theorem missing_config_fatal_and_word_count_total (env : Env)
    (mc : MultiConfig) (mp cpath : String) (ew : Either String String) :
    (mc.language = none →
      make_mnemonic_seed env mc mp cpath ew =
        Outcome.fatal "--language is not defaulted" [])
    ∧ (∀ ls, mc.language = some ls → mc.word_count = none →
      make_mnemonic_seed env mc mp cpath ew =
        Outcome.fatal "--word-count is not defaulted" [])
    ∧ (∀ wc, wc ∈ ([12, 15, 18, 21, 24] : List Nat) →
      (MnemonicType.for_word_count wc).isSome = true) := by
  refine ⟨fun h => ?_, fun ls hls hwc => ?_, fun wc hwc => ?_⟩
  · simp [make_mnemonic_seed, h]
  · simp [make_mnemonic_seed, hls, hwc]
  · fin_cases hwc <;> rfl

/-- Witness for C8: the two missing-value fatalities and the conversion at
word count 15. -/
theorem missing_config_fatal_and_word_count_total_witness :
    make_mnemonic_seed sampleEnv noLanguageConfig "Mortimer"
        sampleConsumingPath (Either.right sampleEarningPath) =
      Outcome.fatal "--language is not defaulted" []
    ∧ make_mnemonic_seed sampleEnv noWordCountConfig "Mortimer"
        sampleConsumingPath (Either.right sampleEarningPath) =
      Outcome.fatal "--word-count is not defaulted" []
    ∧ (MnemonicType.for_word_count 15).isSome = true :=
  ⟨(missing_config_fatal_and_word_count_total sampleEnv noLanguageConfig
      "Mortimer" sampleConsumingPath (Either.right sampleEarningPath)).1 rfl,
   (missing_config_fatal_and_word_count_total sampleEnv noWordCountConfig
      "Mortimer" sampleConsumingPath (Either.right sampleEarningPath)).2.1
      "español" rfl rfl,
   (missing_config_fatal_and_word_count_total sampleEnv sampleConfig
      "Mortimer" sampleConsumingPath (Either.right sampleEarningPath)).2.2
      15 (by decide)⟩

/-- Claim C2 counterexample: in the concrete scenario-A run, the report
stage writes console output (the recovery header, the mnemonic phrase)
BEFORE the wallet derivations: a write precedes a later key-derivation
event in the report trace, refuting "both the consuming and the earning
wallet derivations complete before the Report stage writes any output". -/
theorem report_writes_before_derivations :
    writeThenDerivation sampleReport.events = true := by
  rfl

/-- Claim C2 (amended): in every non-colliding run with resolved
configuration, the pipeline is linear with no stage re-entered — the trace
is exactly the collision check, then the passphrase-collection events
(console interaction only), then the single mnemonic-generation event, then
the report-stage events; but the wallet derivations happen INSIDE the
report stage, interleaved with its output: the recovery header, the
mnemonic phrase and the blank lines are written before the consuming
derivation (and the earning derivation comes later still), and a
successful report completes the run. -/
theorem pipeline_linear_with_interleaved_report (env : Env)
    (mc : MultiConfig) (pc : PersistentConfiguration)
    (hpc : pc.encrypted_mnemonic_seed = none)
    (wc : Nat) (ls : String) (t : MnemonicType)
    (hwc : mc.word_count = some wc) (hls : mc.language = some ls)
    (ht : MnemonicType.for_word_count wc = some t)
    (mp : String) (passEvs : List Event)
    (hmp : make_mnemonic_passphrase env mc = Outcome.ok mp passEvs) :
    (parse_args env mc pc).events =
      Event.checkEncryptedMnemonicSeed :: (passEvs ++
        Event.makeMnemonic t (language_from_name ls) ::
          (report_wallet_information env
            (env.mnemonicMake t (language_from_name ls))
            (env.bip39Seed (env.mnemonicMake t (language_from_name ls)) mp)
            mc.consuming_derivation_path mc.earning_wallet_info).events)
    ∧ passEvs.all Event.isConsole = true
    ∧ (report_wallet_information env
        (env.mnemonicMake t (language_from_name ls))
        (env.bip39Seed (env.mnemonicMake t (language_from_name ls)) mp)
        mc.consuming_derivation_path mc.earning_wallet_info).events.take 4 =
      [Event.writeStdout recoveryHeader,
       Event.writeStdout (env.mnemonicMake t (language_from_name ls)).phrase,
       Event.writeStdout "\n\n",
       Event.deriveKeyPair
         (env.bip39Seed (env.mnemonicMake t (language_from_name ls)) mp)
         mc.consuming_derivation_path]
    ∧ ((report_wallet_information env
        (env.mnemonicMake t (language_from_name ls))
        (env.bip39Seed (env.mnemonicMake t (language_from_name ls)) mp)
        mc.consuming_derivation_path mc.earning_wallet_info).isOk = true →
      (parse_args env mc pc).isOk = true) := by
  refine ⟨?_, make_mnemonic_passphrase_console env mc mp passEvs hmp,
    report_events_take_four env (env.mnemonicMake t (language_from_name ls))
      (env.bip39Seed (env.mnemonicMake t (language_from_name ls)) mp)
      mc.consuming_derivation_path mc.earning_wallet_info, ?_⟩
  · rw [parse_args_events env mc pc hpc,
      make_wallet_creation_config_events env mc mp passEvs hmp,
      make_mnemonic_seed_trace env mc wc ls t hwc hls ht mp
        mc.consuming_derivation_path mc.earning_wallet_info]
  · intro hrep
    obtain ⟨u, revs, hr⟩ : ∃ u revs,
        report_wallet_information env
          (env.mnemonicMake t (language_from_name ls))
          (env.bip39Seed (env.mnemonicMake t (language_from_name ls)) mp)
          mc.consuming_derivation_path mc.earning_wallet_info =
          Outcome.ok u revs := by
      cases hcase : report_wallet_information env
          (env.mnemonicMake t (language_from_name ls))
          (env.bip39Seed (env.mnemonicMake t (language_from_name ls)) mp)
          mc.consuming_derivation_path mc.earning_wallet_info with
      | ok u revs => exact ⟨u, revs, rfl⟩
      | fatal m revs => rw [hcase] at hrep; simp [Outcome.isOk] at hrep
    simp [parse_args, make_wallet_creation_config, make_mnemonic_seed,
      hpc, hmp, hls, hwc, ht, hr, Outcome.isOk]

/-- Witness for the amended C2: the scenario-A run in the concrete
environment, where the passphrase is pre-supplied (empty passphrase-stage
trace). -/
theorem pipeline_linear_with_interleaved_report_witness :
    (parse_args sampleEnv sampleConfig emptyStore).events =
      Event.checkEncryptedMnemonicSeed :: (([] : List Event) ++
        Event.makeMnemonic MnemonicType.Words15 (language_from_name "español") ::
          (report_wallet_information sampleEnv
            (sampleEnv.mnemonicMake MnemonicType.Words15
              (language_from_name "español"))
            (sampleEnv.bip39Seed
              (sampleEnv.mnemonicMake MnemonicType.Words15
                (language_from_name "español")) "Mortimer")
            sampleConfig.consuming_derivation_path
            sampleConfig.earning_wallet_info).events)
    ∧ List.all ([] : List Event) Event.isConsole = true
    ∧ (report_wallet_information sampleEnv
        (sampleEnv.mnemonicMake MnemonicType.Words15
          (language_from_name "español"))
        (sampleEnv.bip39Seed
          (sampleEnv.mnemonicMake MnemonicType.Words15
            (language_from_name "español")) "Mortimer")
        sampleConfig.consuming_derivation_path
        sampleConfig.earning_wallet_info).events.take 4 =
      [Event.writeStdout recoveryHeader,
       Event.writeStdout
         (sampleEnv.mnemonicMake MnemonicType.Words15
           (language_from_name "español")).phrase,
       Event.writeStdout "\n\n",
       Event.deriveKeyPair
         (sampleEnv.bip39Seed
           (sampleEnv.mnemonicMake MnemonicType.Words15
             (language_from_name "español")) "Mortimer")
         sampleConfig.consuming_derivation_path]
    ∧ ((report_wallet_information sampleEnv
        (sampleEnv.mnemonicMake MnemonicType.Words15
          (language_from_name "español"))
        (sampleEnv.bip39Seed
          (sampleEnv.mnemonicMake MnemonicType.Words15
            (language_from_name "español")) "Mortimer")
        sampleConfig.consuming_derivation_path
        sampleConfig.earning_wallet_info).isOk = true →
      (parse_args sampleEnv sampleConfig emptyStore).isOk = true) :=
  pipeline_linear_with_interleaved_report sampleEnv sampleConfig emptyStore
    rfl 15 "español" MnemonicType.Words15 rfl rfl rfl "Mortimer" [] rfl

end GenerateWallet
